import Mathlib

/-!
# Verification of the AIS2DW12 register driver (`ais2dw12_reg.c`)

Shallow embedding of the driver register field codec, its composite
multi-register set/get protocol, the transport shim, the status batch read
and the raw sample assembly, together with proofs of the specified
properties.

Registers are bytes (`Nat` values, reduced mod 256 at the bus boundary).
The named bit-fields of a register byte are accessed through explicit mask/shift
arithmetic (`rdField` / `wrField`): the C source overlays bit-field structs
on byte storage; the bit positions and widths used here, together with the
register addresses and the numeric enumeration codes, come from the device
description in the driver interface header (`ais2dw12_reg.h`), which is
not part of the source tree; they are modelled from the spec register map
and encoding tables.

Every driver operation is embedded as a function over an abstract bus
device (the caller-supplied `read_reg` / `write_reg` callbacks with their
handle state), instrumented with the trace of bus transactions it issues,
mirroring the C control flow statement by statement.
-/

namespace Ais2dw12

/-! ## Register addresses (modelled from the spec register map; the
defining header is not in the source tree). Only their distinctness is
load-bearing below. -/

def AIS2DW12_OUT_T_L : Nat := 0x0D
def AIS2DW12_CTRL1 : Nat := 0x20
def AIS2DW12_CTRL2 : Nat := 0x21
def AIS2DW12_CTRL3 : Nat := 0x22
def AIS2DW12_CTRL4_INT1 : Nat := 0x23
def AIS2DW12_CTRL5_INT2 : Nat := 0x24
def AIS2DW12_CTRL6 : Nat := 0x25
def AIS2DW12_OUT_X_L : Nat := 0x28
def AIS2DW12_WAKE_UP_THS : Nat := 0x34
def AIS2DW12_WAKE_UP_DUR : Nat := 0x35
def AIS2DW12_FREE_FALL : Nat := 0x36
def AIS2DW12_STATUS_DUP : Nat := 0x37
def AIS2DW12_CTRL7 : Nat := 0x3F

/-! ## Byte bit-field access

`rdField b lo w` extracts the `w`-bit field of byte `b` starting at bit
`lo`; `wrField b lo w v` replaces that field with `v` (truncated to `w`
bits), leaving every other bit of the byte unchanged.  This is the
mask/shift decode/encode the spec prescribes for the C bit-field structs. -/

def rdField (b lo w : Nat) : Nat := b / 2 ^ lo % 2 ^ w

def wrField (b lo w v : Nat) : Nat :=
  b % 2 ^ lo + v % 2 ^ w * 2 ^ lo + 2 ^ (lo + w) * (b % 256 / 2 ^ (lo + w))

theorem wrField_eq_of_lt {b : Nat} (lo w v : Nat) (hb : b < 256) :
    wrField b lo w v = b % 2 ^ lo + v % 2 ^ w * 2 ^ lo + 2 ^ (lo + w) * (b / 2 ^ (lo + w)) := by
  rw [wrField, Nat.mod_eq_of_lt hb]

/-- Regrouped form: low part plus `2^lo` times (field plus high part). -/
theorem wrField_regroup {b : Nat} (lo w v : Nat) (hb : b < 256) :
    wrField b lo w v =
      b % 2 ^ lo + 2 ^ lo * (v % 2 ^ w + 2 ^ w * (b / 2 ^ (lo + w))) := by
  rw [wrField_eq_of_lt lo w v hb, pow_add]
  ring

theorem wrField_mod_low {b : Nat} (lo w v : Nat) (hb : b < 256) :
    wrField b lo w v % 2 ^ lo = b % 2 ^ lo := by
  rw [wrField_regroup lo w v hb, Nat.add_mul_mod_self_left,
    Nat.mod_mod_of_dvd _ dvd_rfl]

theorem wrField_div_low {b : Nat} (lo w v : Nat) (hb : b < 256) :
    wrField b lo w v / 2 ^ lo = v % 2 ^ w + 2 ^ w * (b / 2 ^ (lo + w)) := by
  rw [wrField_regroup lo w v hb, Nat.add_mul_div_left _ _ (Nat.pos_pow_of_pos lo (by norm_num)),
    Nat.div_eq_of_lt (Nat.mod_lt _ (Nat.pos_pow_of_pos lo (by norm_num))), Nat.zero_add]

/-- Reading back the field just written yields the written value (mod its width). -/
theorem rdField_wrField_self {b : Nat} (lo w v : Nat) (hb : b < 256) :
    rdField (wrField b lo w v) lo w = v % 2 ^ w := by
  rw [rdField, wrField_div_low lo w v hb, Nat.add_mul_mod_self_left,
    Nat.mod_mod_of_dvd _ dvd_rfl]

theorem wrField_div_high {b : Nat} (lo w v : Nat) (hb : b < 256) :
    wrField b lo w v / 2 ^ (lo + w) = b / 2 ^ (lo + w) := by
  have h2 : (2 : Nat) ^ (lo + w) = 2 ^ lo * 2 ^ w := pow_add 2 lo w
  rw [h2, ← Nat.div_div_eq_div_mul, ← Nat.div_div_eq_div_mul, wrField_div_low lo w v hb,
    Nat.add_mul_div_left _ _ (Nat.pos_pow_of_pos w (by norm_num)),
    Nat.div_eq_of_lt (Nat.mod_lt _ (Nat.pos_pow_of_pos w (by norm_num))), Nat.zero_add,
    h2, Nat.div_div_eq_div_mul]

/-- Writing one field leaves every strictly higher field unchanged. -/
theorem rdField_wrField_high {b : Nat} (lo w v lo2 w2 : Nat) (hb : b < 256)
    (h : lo + w ≤ lo2) :
    rdField (wrField b lo w v) lo2 w2 = rdField b lo2 w2 := by
  have hsplit : (2 : Nat) ^ lo2 = 2 ^ (lo + w) * 2 ^ (lo2 - (lo + w)) := by
    rw [← pow_add, Nat.add_sub_cancel' h]
  rw [rdField, rdField, hsplit, ← Nat.div_div_eq_div_mul, ← Nat.div_div_eq_div_mul,
    wrField_div_high lo w v hb]

/-- The written byte is again a byte. -/
theorem wrField_lt (b lo w v : Nat) (h : lo + w ≤ 8) :
    wrField b lo w v < 256 := by
  have hA : (0 : Nat) < 2 ^ lo := Nat.pos_pow_of_pos lo (by norm_num)
  have hB : (0 : Nat) < 2 ^ w := Nat.pos_pow_of_pos w (by norm_num)
  have hC : (0 : Nat) < 2 ^ (lo + w) := Nat.pos_pow_of_pos _ (by norm_num)
  have hr : b % 2 ^ lo < 2 ^ lo := Nat.mod_lt _ hA
  have hf : v % 2 ^ w < 2 ^ w := Nat.mod_lt _ hB
  have hq : b % 256 / 2 ^ (lo + w) < 2 ^ (8 - (lo + w)) := by
    rw [Nat.div_lt_iff_lt_mul hC, ← pow_add, Nat.sub_add_cancel h]
    exact Nat.mod_lt _ (by norm_num)
  have hwl : (2 : Nat) ^ w * 2 ^ lo = 2 ^ (lo + w) := by
    rw [← pow_add, Nat.add_comm]
  have hCD : (2 : Nat) ^ (lo + w) * 2 ^ (8 - (lo + w)) = 256 := by
    rw [← pow_add, Nat.add_sub_cancel' h]; norm_num
  have h2 : v % 2 ^ w * 2 ^ lo ≤ 2 ^ (lo + w) - 2 ^ lo := by
    calc v % 2 ^ w * 2 ^ lo ≤ (2 ^ w - 1) * 2 ^ lo := Nat.mul_le_mul_right _ (by omega)
      _ = 2 ^ w * 2 ^ lo - 2 ^ lo := Nat.sub_one_mul _ _
      _ = 2 ^ (lo + w) - 2 ^ lo := by rw [hwl]
  have h3 : 2 ^ (lo + w) * (b % 256 / 2 ^ (lo + w)) ≤ 256 - 2 ^ (lo + w) := by
    calc 2 ^ (lo + w) * (b % 256 / 2 ^ (lo + w))
        ≤ 2 ^ (lo + w) * (2 ^ (8 - (lo + w)) - 1) := Nat.mul_le_mul_left _ (by omega)
      _ = 2 ^ (lo + w) * 2 ^ (8 - (lo + w)) - 2 ^ (lo + w) := Nat.mul_sub_one ..
      _ = 256 - 2 ^ (lo + w) := by rw [hCD]
  have hle1 : (2 : Nat) ^ lo ≤ 2 ^ (lo + w) :=
    Nat.pow_le_pow_right (by norm_num) (Nat.le_add_right _ _)
  have hle2 : (2 : Nat) ^ (lo + w) ≤ 256 := by
    calc (2 : Nat) ^ (lo + w) ≤ 2 ^ 8 := Nat.pow_le_pow_right (by norm_num) h
      _ = 256 := by norm_num
  rw [wrField]
  omega

/-! ## Bus devices and transaction traces

A `Device` is the caller transport: its `readReg` returns a status, the
bytes read, and the successor handle state; its `writeReg` returns a status
and the successor state.  `RunState` threads the device state and the list
of bus transactions issued so far. -/

inductive BusEvent where
  | read (reg len : Nat)
  | write (reg : Nat) (data : List Nat)
deriving DecidableEq, Repr

structure Device (σ : Type) where
  readReg : σ → Nat → Nat → Int × List Nat × σ
  writeReg : σ → Nat → List Nat → Int × σ

structure RunState (σ : Type) where
  dev : σ
  tr : List BusEvent

/-- Helper: `ais2dw12_read_reg` on a non-null context, instrumented with the trace. -/
def readR {σ : Type} (D : Device σ) (reg len : Nat) (s : RunState σ) :
    Int × List Nat × RunState σ :=
  let r := D.readReg s.dev reg len
  (r.1, r.2.1, ⟨r.2.2, s.tr ++ [BusEvent.read reg len]⟩)

/-- Helper: `ais2dw12_write_reg` on a non-null context, instrumented with the trace. -/
def writeR {σ : Type} (D : Device σ) (reg : Nat) (data : List Nat) (s : RunState σ) :
    Int × RunState σ :=
  let r := D.writeReg s.dev reg data
  (r.1, ⟨r.2, s.tr ++ [BusEvent.write reg data]⟩)

/-- The first byte of a read buffer, as the 8-bit value the C code sees. -/
def byte1 (bs : List Nat) : Nat := bs.headD 0 % 256

/-! ## The simulated register store

A register store maps addresses to bytes; a read returns the last byte
written at each address (never failing), as the spec simulated store
prescribes. -/

def Mem : Type := Nat → Nat

def readBytes (m : Mem) (reg : Nat) : Nat → List Nat
  | 0 => []
  | n + 1 => m reg % 256 :: readBytes m (reg + 1) n

def updList (m : Mem) (reg : Nat) : List Nat → Mem
  | [] => m
  | d :: ds => updList (fun a => if a = reg then d % 256 else m a) (reg + 1) ds

def memDevice : Device Mem where
  readReg m reg len := (0, readBytes m reg len, m)
  writeReg m reg data := (0, updList m reg data)

/-- The all-zero initial store. -/
def mem0 : Mem := fun _ => 0

theorem updList_single (m : Mem) (reg d : Nat) :
    updList m reg [d] = fun a => if a = reg then d % 256 else m a := by
  rfl

theorem readBytes_one (m : Mem) (reg : Nat) :
    readBytes m reg 1 = [m reg % 256] := rfl

/-! ## Enumeration codes and switch decoders

Numeric codes of the typed enumerations (modelled from the spec encoding
tables; the defining header is not in the source tree).  Each `decode...`
is the C getter `switch`: the identity on listed codes, the documented
default member on any other (reserved) pattern. -/

def modeCodes : List Nat := [0x00, 0x01, 0x02, 0x03, 0x08, 0x09, 0x0A, 0x0B]

/-- C function `ais2dw12_power_mode_get` switch; default `AIS2DW12_PWR_MD_4 = 0x00`. -/
def decodeMode (k : Nat) : Nat := if k ∈ modeCodes then k else 0x00

def odrCodes : List Nat := [0x00, 0x01, 0x02, 0x03, 0x04, 0x12, 0x22]

/-- C function `ais2dw12_data_rate_get` switch; default `AIS2DW12_XL_ODR_OFF = 0x00`. -/
def decodeOdr (k : Nat) : Nat := if k ∈ odrCodes then k else 0x00

def fsCodes : List Nat := [0x00, 0x01]

/-- C function `ais2dw12_full_scale_get` switch; default `AIS2DW12_2g = 0x00`. -/
def decodeFs (k : Nat) : Nat := if k ∈ fsCodes then k else 0x00

def fdsCodes : List Nat := [0x00, 0x01, 0x10]

/-- C function `ais2dw12_filter_path_get` switch; default `AIS2DW12_LPF_ON_OUT = 0x00`. -/
def decodeFds (k : Nat) : Nat := if k ∈ fdsCodes then k else 0x00

def sleepOnCodes : List Nat := [0x00, 0x01, 0x03]

/-- C function `ais2dw12_act_mode_get` switch; default `AIS2DW12_NO_DETECTION = 0x00`. -/
def decodeSleepOn (k : Nat) : Nat := if k ∈ sleepOnCodes then k else 0x00

/-! ## Embedded driver operations

Each definition mirrors the C function of the same name statement by
statement: the status-guarded sequential `if (ret == 0)` blocks become
nested conditionals (equivalent control flow: once `ret` is non-zero every
later block is skipped and `ret` is returned).  Bit-field struct member
assignments become `wrField`, member reads become `rdField`, at the
modelled bit positions.  Getters take the caller output variable prior
value and return its final value, so that (non-)assignment on failure paths
is observable. -/

section Ops

variable {σ : Type}

/-- C function `ais2dw12_power_mode_set`: CTRL1 read-modify-write of `op_mode`
(bits 2-3) and `pw_mode` (bits 0-1). -/
def ais2dw12_power_mode_set (D : Device σ) (val : Nat) (s : RunState σ) :
    Int × RunState σ :=
  let r := readR D AIS2DW12_CTRL1 1 s
  if r.1 = 0 then
    let b := wrField (byte1 r.2.1) 2 2 ((val &&& 0x0C) >>> 2)
    let b := wrField b 0 2 (val &&& 0x03)
    writeR D AIS2DW12_CTRL1 [b] r.2.2
  else (r.1, r.2.2)

/-- C function `ais2dw12_power_mode_get`: CTRL1 read, then the switch (which the C
code runs whether or not the read succeeded). -/
def ais2dw12_power_mode_get (D : Device σ) (_val0 : Nat) (s : RunState σ) :
    Int × Nat × RunState σ :=
  let r := readR D AIS2DW12_CTRL1 1 s
  let b := byte1 r.2.1
  (r.1, decodeMode ((rdField b 2 2 <<< 2) + rdField b 0 2), r.2.2)

/-- C function `ais2dw12_data_rate_set`: composite set of `odr` (CTRL1 bits 4-7) and
`slp_mode` (CTRL3 bits 0-1), in the source order
read CTRL1, write CTRL1, read CTRL3, write CTRL3. -/
def ais2dw12_data_rate_set (D : Device σ) (val : Nat) (s : RunState σ) :
    Int × RunState σ :=
  let r := readR D AIS2DW12_CTRL1 1 s
  if r.1 = 0 then
    let w1 := writeR D AIS2DW12_CTRL1 [wrField (byte1 r.2.1) 4 4 val] r.2.2
    if w1.1 = 0 then
      let r2 := readR D AIS2DW12_CTRL3 1 w1.2
      if r2.1 = 0 then
        writeR D AIS2DW12_CTRL3 [wrField (byte1 r2.2.1) 0 2 ((val &&& 0x30) >>> 4)] r2.2.2
      else (r2.1, r2.2.2)
    else w1
  else (r.1, r.2.2)

/-- C function `ais2dw12_data_rate_get`: composite get; the second read and the switch
run only if the first read succeeded, and the output is only assigned
then. -/
def ais2dw12_data_rate_get (D : Device σ) (val0 : Nat) (s : RunState σ) :
    Int × Nat × RunState σ :=
  let r := readR D AIS2DW12_CTRL1 1 s
  if r.1 = 0 then
    let r2 := readR D AIS2DW12_CTRL3 1 r.2.2
    (r2.1, decodeOdr ((rdField (byte1 r2.2.1) 0 2 <<< 4) + rdField (byte1 r.2.1) 4 4), r2.2.2)
  else (r.1, val0, r.2.2)

/-- C function `ais2dw12_block_data_update_set`: CTRL2 read-modify-write of `bdu`
(bit 3). -/
def ais2dw12_block_data_update_set (D : Device σ) (val : Nat) (s : RunState σ) :
    Int × RunState σ :=
  let r := readR D AIS2DW12_CTRL2 1 s
  if r.1 = 0 then
    writeR D AIS2DW12_CTRL2 [wrField (byte1 r.2.1) 3 1 val] r.2.2
  else (r.1, r.2.2)

/-- C function `ais2dw12_block_data_update_get`: single-register get; the C code
assigns the output from the buffer unconditionally, read failure or not. -/
def ais2dw12_block_data_update_get (D : Device σ) (_val0 : Nat) (s : RunState σ) :
    Int × Nat × RunState σ :=
  let r := readR D AIS2DW12_CTRL2 1 s
  (r.1, rdField (byte1 r.2.1) 3 1, r.2.2)

/-- C function `ais2dw12_full_scale_set`: CTRL6 read-modify-write of `fs`
(bits 4-5). -/
def ais2dw12_full_scale_set (D : Device σ) (val : Nat) (s : RunState σ) :
    Int × RunState σ :=
  let r := readR D AIS2DW12_CTRL6 1 s
  if r.1 = 0 then
    writeR D AIS2DW12_CTRL6 [wrField (byte1 r.2.1) 4 2 val] r.2.2
  else (r.1, r.2.2)

/-- C function `ais2dw12_full_scale_get`: CTRL6 read, then the switch (run by the C
code whether or not the read succeeded). -/
def ais2dw12_full_scale_get (D : Device σ) (_val0 : Nat) (s : RunState σ) :
    Int × Nat × RunState σ :=
  let r := readR D AIS2DW12_CTRL6 1 s
  (r.1, decodeFs (rdField (byte1 r.2.1) 4 2), r.2.2)

/-- C function `ais2dw12_filter_path_set`: composite set of `fds` (CTRL6 bit 3) and
`usr_off_on_out` (CTRL7 bit 4), in the source order
read CTRL6, write CTRL6, read CTRL7, write CTRL7. -/
def ais2dw12_filter_path_set (D : Device σ) (val : Nat) (s : RunState σ) :
    Int × RunState σ :=
  let r := readR D AIS2DW12_CTRL6 1 s
  if r.1 = 0 then
    let w1 := writeR D AIS2DW12_CTRL6 [wrField (byte1 r.2.1) 3 1 ((val &&& 0x10) >>> 4)] r.2.2
    if w1.1 = 0 then
      let r2 := readR D AIS2DW12_CTRL7 1 w1.2
      if r2.1 = 0 then
        writeR D AIS2DW12_CTRL7 [wrField (byte1 r2.2.1) 4 1 (val &&& 0x01)] r2.2.2
      else (r2.1, r2.2.2)
    else w1
  else (r.1, r.2.2)

/-- C function `ais2dw12_filter_path_get`: composite get, output assigned only when
the first read succeeded. -/
def ais2dw12_filter_path_get (D : Device σ) (val0 : Nat) (s : RunState σ) :
    Int × Nat × RunState σ :=
  let r := readR D AIS2DW12_CTRL6 1 s
  if r.1 = 0 then
    let r2 := readR D AIS2DW12_CTRL7 1 r.2.2
    (r2.1, decodeFds ((rdField (byte1 r.2.1) 3 1 <<< 4) + rdField (byte1 r2.2.1) 4 1), r2.2.2)
  else (r.1, val0, r.2.2)

/-- C function `ais2dw12_act_mode_set`: composite set of `sleep_on` (WAKE_UP_THS
bit 6) and `stationary` (WAKE_UP_DUR bit 4); both registers are read
before either is written. -/
def ais2dw12_act_mode_set (D : Device σ) (val : Nat) (s : RunState σ) :
    Int × RunState σ :=
  let r := readR D AIS2DW12_WAKE_UP_THS 1 s
  if r.1 = 0 then
    let r2 := readR D AIS2DW12_WAKE_UP_DUR 1 r.2.2
    if r2.1 = 0 then
      let w1 := writeR D AIS2DW12_WAKE_UP_THS
        [wrField (byte1 r.2.1) 6 1 (val &&& 0x01)] r2.2.2
      if w1.1 = 0 then
        writeR D AIS2DW12_WAKE_UP_DUR
          [wrField (byte1 r2.2.1) 4 1 ((val &&& 0x02) >>> 1)] w1.2
      else w1
    else (r2.1, r2.2.2)
  else (r.1, r.2.2)

/-- C function `ais2dw12_act_mode_get`: composite get, output assigned only when the
first read succeeded. -/
def ais2dw12_act_mode_get (D : Device σ) (val0 : Nat) (s : RunState σ) :
    Int × Nat × RunState σ :=
  let r := readR D AIS2DW12_WAKE_UP_THS 1 s
  if r.1 = 0 then
    let r2 := readR D AIS2DW12_WAKE_UP_DUR 1 r.2.2
    (r2.1, decodeSleepOn ((rdField (byte1 r2.2.1) 4 1 <<< 1) + rdField (byte1 r.2.1) 6 1),
      r2.2.2)
  else (r.1, val0, r.2.2)

/-- C function `ais2dw12_ff_dur_set`: composite set of the split free-fall duration,
`ff_dur` high bit (WAKE_UP_DUR bit 7) and `ff_dur` low 5 bits (FREE_FALL
bits 3-7); both registers are read before either is written. -/
def ais2dw12_ff_dur_set (D : Device σ) (val : Nat) (s : RunState σ) :
    Int × RunState σ :=
  let r := readR D AIS2DW12_WAKE_UP_DUR 1 s
  if r.1 = 0 then
    let r2 := readR D AIS2DW12_FREE_FALL 1 r.2.2
    if r2.1 = 0 then
      let w1 := writeR D AIS2DW12_WAKE_UP_DUR
        [wrField (byte1 r.2.1) 7 1 ((val &&& 0x20) >>> 5)] r2.2.2
      if w1.1 = 0 then
        writeR D AIS2DW12_FREE_FALL
          [wrField (byte1 r2.2.1) 3 5 (val &&& 0x1F)] w1.2
      else w1
    else (r2.1, r2.2.2)
  else (r.1, r.2.2)

/-- C function `ais2dw12_pin_int1_route_set`: writes the caller CTRL4_INT1 byte and
recomputes CTRL7 `interrupts_enable` (bit 5) from pin-1 `int1_ff`
(bit 4), `int1_wu` (bit 5), `int1_6d` (bit 7) and pin-2 currently stored
`int2_sleep_state` (bit 7), `int2_sleep_chg` (bit 6); reads CTRL5_INT2 and
CTRL7 before writing CTRL4_INT1 then CTRL7. -/
def ais2dw12_pin_int1_route_set (D : Device σ) (val : Nat) (s : RunState σ) :
    Int × RunState σ :=
  let r := readR D AIS2DW12_CTRL5_INT2 1 s
  if r.1 = 0 then
    let r2 := readR D AIS2DW12_CTRL7 1 r.2.2
    if r2.1 = 0 then
      let b5 := byte1 r.2.1
      let vb := val % 256
      let e : Nat := if (rdField vb 4 1 ||| rdField vb 5 1 ||| rdField vb 7 1 |||
          rdField b5 7 1 ||| rdField b5 6 1) ≠ 0 then 1 else 0
      let w1 := writeR D AIS2DW12_CTRL4_INT1 [vb] r2.2.2
      if w1.1 = 0 then
        writeR D AIS2DW12_CTRL7 [wrField (byte1 r2.2.1) 5 1 e] w1.2
      else w1
    else (r2.1, r2.2.2)
  else (r.1, r.2.2)

/-- C function `ais2dw12_pin_int2_route_set`: the mirror image, first reading pin-1
CTRL4_INT1, then CTRL7; writes CTRL5_INT2 then CTRL7. -/
def ais2dw12_pin_int2_route_set (D : Device σ) (val : Nat) (s : RunState σ) :
    Int × RunState σ :=
  let r := readR D AIS2DW12_CTRL4_INT1 1 s
  if r.1 = 0 then
    let r2 := readR D AIS2DW12_CTRL7 1 r.2.2
    if r2.1 = 0 then
      let b4 := byte1 r.2.1
      let vb := val % 256
      let e : Nat := if (rdField b4 4 1 ||| rdField b4 5 1 ||| rdField b4 7 1 |||
          rdField vb 7 1 ||| rdField vb 6 1) ≠ 0 then 1 else 0
      let w1 := writeR D AIS2DW12_CTRL5_INT2 [vb] r2.2.2
      if w1.1 = 0 then
        writeR D AIS2DW12_CTRL7 [wrField (byte1 r2.2.1) 5 1 e] w1.2
      else w1
    else (r2.1, r2.2.2)
  else (r.1, r.2.2)

/-- The four sub-structures of `ais2dw12_all_sources_t`, one byte each. -/
structure AllSources where
  status_dup : Nat
  wake_up_src : Nat
  sixd_src : Nat
  all_int_src : Nat
deriving DecidableEq, Repr

/-- C function `ais2dw12_all_sources_get`: one 5-byte read at STATUS_DUP; `bytecpy`
distributes buffer bytes 0, 1, 3, 4 to the four sub-structures (both
pointers are non-null at every call site, so each copy happens); buffer
byte 2 is never exposed. -/
def ais2dw12_all_sources_get (D : Device σ) (s : RunState σ) :
    Int × AllSources × RunState σ :=
  let r := readR D AIS2DW12_STATUS_DUP 5 s
  let bs := r.2.1
  (r.1,
    { status_dup := bs.getD 0 0 % 256, wake_up_src := bs.getD 1 0 % 256,
      sixd_src := bs.getD 3 0 % 256, all_int_src := bs.getD 4 0 % 256 },
    r.2.2)

/-- The 16-bit twos-complement value of the low 16 bits of `x` (the C
conversion of `high*256 + low` back into an `int16_t`). -/
def i16 (x : Nat) : Int :=
  if x % 65536 < 32768 then (x % 65536 : Int) else (x % 65536 : Int) - 65536

/-- C function `ais2dw12_temperature_raw_get`: one 2-byte read at OUT_T_L;
`val = (int16)buff[1]; val = val*256 + (int16)buff[0]`. -/
def ais2dw12_temperature_raw_get (D : Device σ) (s : RunState σ) :
    Int × Int × RunState σ :=
  let r := readR D AIS2DW12_OUT_T_L 2 s
  (r.1, i16 ((r.2.1.getD 1 0 % 256) * 256 + r.2.1.getD 0 0 % 256), r.2.2)

/-- C function `ais2dw12_acceleration_raw_get`: one 6-byte read at OUT_X_L; each axis
`i` is `(int16)buff[2i+1] * 256 + (int16)buff[2i]`, wrapped to 16 bits. -/
def ais2dw12_acceleration_raw_get (D : Device σ) (s : RunState σ) :
    Int × (Int × Int × Int) × RunState σ :=
  let r := readR D AIS2DW12_OUT_X_L 6 s
  let bs := r.2.1
  (r.1,
    (i16 ((bs.getD 1 0 % 256) * 256 + bs.getD 0 0 % 256),
     i16 ((bs.getD 3 0 % 256) * 256 + bs.getD 2 0 % 256),
     i16 ((bs.getD 5 0 % 256) * 256 + bs.getD 4 0 % 256)),
    r.2.2)

end Ops

/-! ## The transport shim (`ais2dw12_read_reg` / `ais2dw12_write_reg`)

The C functions take a possibly-NULL `stmdev_ctx_t *`: NULL yields the
fixed sentinel `-1` with the bus untouched; otherwise the register
address, buffer and length are forwarded verbatim to the caller callback
and its status is returned unchanged. -/

structure StmdevCtx (σ : Type) where
  handle : σ
  read_reg : σ → Nat → Nat → Int × List Nat × σ
  write_reg : σ → Nat → List Nat → Int × σ

def ais2dw12_read_reg {σ : Type} (ctx : Option (StmdevCtx σ)) (reg : Nat)
    (len : Nat) : Int × List Nat × Option σ :=
  match ctx with
  | none => (-1, [], none)
  | some c =>
    let r := c.read_reg c.handle reg len
    (r.1, r.2.1, some r.2.2)

def ais2dw12_write_reg {σ : Type} (ctx : Option (StmdevCtx σ)) (reg : Nat)
    (data : List Nat) : Int × Option σ :=
  match ctx with
  | none => (-1, none)
  | some c =>
    let r := c.write_reg c.handle reg data
    (r.1, some r.2)

/-! ## Trace predicates -/

/-- Does the trace contain a read event? -/
def hasRead : List BusEvent → Bool
  | [] => false
  | BusEvent.read _ _ :: _ => true
  | _ :: rest => hasRead rest

/-- Does some write event precede some read event in the trace? -/
def writeBeforeRead : List BusEvent → Bool
  | [] => false
  | BusEvent.write _ _ :: rest => hasRead rest || writeBeforeRead rest
  | _ :: rest => writeBeforeRead rest

/-- The number of write events in the trace. -/
def writeCount : List BusEvent → Nat
  | [] => 0
  | BusEvent.write _ _ :: rest => writeCount rest + 1
  | _ :: rest => writeCount rest

/-! ## Small computation lemmas used by the proofs -/

theorem byte1_cons (x : Nat) (xs : List Nat) : byte1 (x :: xs) = x % 256 := rfl

theorem mod256_mod256 (x : Nat) : x % 256 % 256 = x % 256 :=
  Nat.mod_mod_of_dvd _ dvd_rfl

theorem readBytes_two (m : Mem) (reg : Nat) :
    readBytes m reg 2 = [m reg % 256, m (reg + 1) % 256] := rfl

theorem readBytes_five (m : Mem) (reg : Nat) :
    readBytes m reg 5 = [m reg % 256, m (reg + 1) % 256, m (reg + 2) % 256,
      m (reg + 3) % 256, m (reg + 4) % 256] := rfl

theorem readBytes_six (m : Mem) (reg : Nat) :
    readBytes m reg 6 = [m reg % 256, m (reg + 1) % 256, m (reg + 2) % 256,
      m (reg + 3) % 256, m (reg + 4) % 256, m (reg + 5) % 256] := rfl

theorem wrField_mod256 (b v : Nat) {lo w : Nat} (h : lo + w ≤ 8) :
    wrField b lo w v % 256 = wrField b lo w v :=
  Nat.mod_eq_of_lt (wrField_lt b lo w v h)

theorem rdField_wrField_self_mod (x lo w v : Nat) :
    rdField (wrField (x % 256) lo w v) lo w = v % 2 ^ w :=
  rdField_wrField_self lo w v (Nat.mod_lt _ (by norm_num))

/-- The setter `power_mode_set` writes `op_mode` then `pw_mode` into the same byte;
reading `op_mode` back skips over the later, lower write. -/
theorem rdField_op_mode (x a c : Nat) :
    rdField (wrField (wrField (x % 256) 2 2 a) 0 2 c) 2 2 = a % 4 := by
  rw [rdField_wrField_high 0 2 c 2 2 (wrField_lt _ _ _ _ (by norm_num)) (by norm_num),
    rdField_wrField_self 2 2 a (Nat.mod_lt _ (by norm_num))]
  norm_num

theorem rdField_pw_mode (x a c : Nat) :
    rdField (wrField (wrField (x % 256) 2 2 a) 0 2 c) 0 2 = c % 4 :=
  rdField_wrField_self 0 2 c (wrField_lt _ _ _ _ (by norm_num))

theorem decodeFs_mem (k : Nat) : decodeFs k ∈ fsCodes := by
  unfold decodeFs; split
  · assumption
  · simp [fsCodes]

theorem decodeMode_mem (k : Nat) : decodeMode k ∈ modeCodes := by
  unfold decodeMode; split
  · assumption
  · simp [modeCodes]

theorem decodeFs_default {k : Nat} (h : k ∉ fsCodes) : decodeFs k = 0 := if_neg h

theorem decodeMode_default {k : Nat} (h : k ∉ modeCodes) : decodeMode k = 0 := if_neg h

/-! ## Round-trip law (set then get against the simulated store) -/

/-- Round trip: `set(v); get()` against the simulated register store starting from any
store contents `m`: both calls succeed and `get` returns exactly `v`. -/
def rtProp (setF : Device Mem → Nat → RunState Mem → Int × RunState Mem)
    (getF : Device Mem → Nat → RunState Mem → Int × Nat × RunState Mem)
    (m : Mem) (v : Nat) : Prop :=
  (setF memDevice v ⟨m, []⟩).1 = 0 ∧
  (getF memDevice 0 (setF memDevice v ⟨m, []⟩).2).1 = 0 ∧
  (getF memDevice 0 (setF memDevice v ⟨m, []⟩).2).2.1 = v

theorem data_rate_roundtrip (m : Mem) (v : Nat) (hv : v ∈ odrCodes) :
    rtProp ais2dw12_data_rate_set ais2dw12_data_rate_get m v := by
  fin_cases hv <;>
    simp [rtProp, ais2dw12_data_rate_set, ais2dw12_data_rate_get, readR, writeR,
      memDevice, readBytes_one, byte1_cons, updList_single, mod256_mod256,
      AIS2DW12_CTRL1, AIS2DW12_CTRL3, wrField_mod256, rdField_wrField_self_mod,
      decodeOdr, odrCodes] <;> decide

theorem power_mode_roundtrip (m : Mem) (v : Nat) (hv : v ∈ modeCodes) :
    rtProp ais2dw12_power_mode_set ais2dw12_power_mode_get m v := by
  fin_cases hv <;>
    simp [rtProp, ais2dw12_power_mode_set, ais2dw12_power_mode_get, readR, writeR,
      memDevice, readBytes_one, byte1_cons, updList_single, mod256_mod256,
      AIS2DW12_CTRL1, wrField_mod256, rdField_op_mode, rdField_pw_mode,
      decodeMode, modeCodes] <;> decide

theorem full_scale_roundtrip (m : Mem) (v : Nat) (hv : v ∈ fsCodes) :
    rtProp ais2dw12_full_scale_set ais2dw12_full_scale_get m v := by
  fin_cases hv <;>
    simp [rtProp, ais2dw12_full_scale_set, ais2dw12_full_scale_get, readR, writeR,
      memDevice, readBytes_one, byte1_cons, updList_single, mod256_mod256,
      AIS2DW12_CTRL6, wrField_mod256, rdField_wrField_self_mod,
      decodeFs, fsCodes] <;> decide

theorem filter_path_roundtrip (m : Mem) (v : Nat) (hv : v ∈ fdsCodes) :
    rtProp ais2dw12_filter_path_set ais2dw12_filter_path_get m v := by
  fin_cases hv <;>
    simp [rtProp, ais2dw12_filter_path_set, ais2dw12_filter_path_get, readR, writeR,
      memDevice, readBytes_one, byte1_cons, updList_single, mod256_mod256,
      AIS2DW12_CTRL6, AIS2DW12_CTRL7, wrField_mod256, rdField_wrField_self_mod,
      decodeFds, fdsCodes] <;> decide

theorem act_mode_roundtrip (m : Mem) (v : Nat) (hv : v ∈ sleepOnCodes) :
    rtProp ais2dw12_act_mode_set ais2dw12_act_mode_get m v := by
  fin_cases hv <;>
    simp [rtProp, ais2dw12_act_mode_set, ais2dw12_act_mode_get, readR, writeR,
      memDevice, readBytes_one, byte1_cons, updList_single, mod256_mod256,
      AIS2DW12_WAKE_UP_THS, AIS2DW12_WAKE_UP_DUR, wrField_mod256,
      rdField_wrField_self_mod, decodeSleepOn, sleepOnCodes] <;> decide

/-- A transport whose every transaction fails with status 7. -/
def failDev : Device Unit where
  readReg _ _ _ := (7, [], ())
  writeReg _ _ _ := (7, ())

/-- Claim C4: for every logical property with a defined enumeration
(power mode, data rate, full scale, filter path, activity mode — the four
codec patterns) and every valid member `v`, `set(v); get()` against a
simulated register store of arbitrary prior contents succeeds and yields
exactly `v`. -/
theorem claim_C4_roundtrip (m : Mem) (v : Nat) :
    (v ∈ modeCodes → rtProp ais2dw12_power_mode_set ais2dw12_power_mode_get m v) ∧
    (v ∈ odrCodes → rtProp ais2dw12_data_rate_set ais2dw12_data_rate_get m v) ∧
    (v ∈ fsCodes → rtProp ais2dw12_full_scale_set ais2dw12_full_scale_get m v) ∧
    (v ∈ fdsCodes → rtProp ais2dw12_filter_path_set ais2dw12_filter_path_get m v) ∧
    (v ∈ sleepOnCodes → rtProp ais2dw12_act_mode_set ais2dw12_act_mode_get m v) :=
  ⟨power_mode_roundtrip m v, data_rate_roundtrip m v, full_scale_roundtrip m v,
    filter_path_roundtrip m v, act_mode_roundtrip m v⟩

/-- Witness for C4: the data-rate round trip at the concrete member `0x12`
(`AIS2DW12_XL_SET_SW_TRIG`, the member split across both registers) from
the all-zero store. -/
theorem claim_C4_roundtrip_witness :
    0x12 ∈ odrCodes ∧ rtProp ais2dw12_data_rate_set ais2dw12_data_rate_get mem0 0x12 :=
  ⟨by decide, (claim_C4_roundtrip mem0 0x12).2.1 (by decide)⟩

/-- Claim C1, counterexample: `ais2dw12_data_rate_set` at value `0x12` on
the simulated store issues the trace read CTRL1, write CTRL1, read CTRL3,
write CTRL3 — the write to CTRL1 precedes the read of involved register
CTRL3, so it is false that all involved registers are read before any
write is issued. -/
theorem claim_C1_counterexample :
    (ais2dw12_data_rate_set memDevice 0x12 ⟨mem0, []⟩).2.tr =
      [BusEvent.read AIS2DW12_CTRL1 1, BusEvent.write AIS2DW12_CTRL1 [0x20],
       BusEvent.read AIS2DW12_CTRL3 1, BusEvent.write AIS2DW12_CTRL3 [0x01]] ∧
    writeBeforeRead (ais2dw12_data_rate_set memDevice 0x12 ⟨mem0, []⟩).2.tr = true := by
  constructor
  · decide
  · decide

/-- Claim C1, amended: on the all-steps-succeed path every composite
setter issues exactly two writes, in a fixed per-property order, and each
involved register is read before it is written; but `data_rate_set` and
`filter_path_set` write the first register before reading the second
(read A, write A, read B, write B), while `ff_dur_set`, `act_mode_set` and
the pin-routing setters read all involved registers before any write. -/
theorem claim_C1_amended (m : Mem) (v : Nat) :
    ((ais2dw12_data_rate_set memDevice v ⟨m, []⟩).2.tr =
      [BusEvent.read AIS2DW12_CTRL1 1,
       BusEvent.write AIS2DW12_CTRL1 [wrField (m AIS2DW12_CTRL1 % 256) 4 4 v],
       BusEvent.read AIS2DW12_CTRL3 1,
       BusEvent.write AIS2DW12_CTRL3
         [wrField (m AIS2DW12_CTRL3 % 256) 0 2 ((v &&& 0x30) >>> 4)]]) ∧
    ((ais2dw12_filter_path_set memDevice v ⟨m, []⟩).2.tr =
      [BusEvent.read AIS2DW12_CTRL6 1,
       BusEvent.write AIS2DW12_CTRL6 [wrField (m AIS2DW12_CTRL6 % 256) 3 1 ((v &&& 0x10) >>> 4)],
       BusEvent.read AIS2DW12_CTRL7 1,
       BusEvent.write AIS2DW12_CTRL7 [wrField (m AIS2DW12_CTRL7 % 256) 4 1 (v &&& 0x01)]]) ∧
    ((ais2dw12_ff_dur_set memDevice v ⟨m, []⟩).2.tr =
      [BusEvent.read AIS2DW12_WAKE_UP_DUR 1, BusEvent.read AIS2DW12_FREE_FALL 1,
       BusEvent.write AIS2DW12_WAKE_UP_DUR
         [wrField (m AIS2DW12_WAKE_UP_DUR % 256) 7 1 ((v &&& 0x20) >>> 5)],
       BusEvent.write AIS2DW12_FREE_FALL
         [wrField (m AIS2DW12_FREE_FALL % 256) 3 5 (v &&& 0x1F)]]) ∧
    ((ais2dw12_act_mode_set memDevice v ⟨m, []⟩).2.tr =
      [BusEvent.read AIS2DW12_WAKE_UP_THS 1, BusEvent.read AIS2DW12_WAKE_UP_DUR 1,
       BusEvent.write AIS2DW12_WAKE_UP_THS
         [wrField (m AIS2DW12_WAKE_UP_THS % 256) 6 1 (v &&& 0x01)],
       BusEvent.write AIS2DW12_WAKE_UP_DUR
         [wrField (m AIS2DW12_WAKE_UP_DUR % 256) 4 1 ((v &&& 0x02) >>> 1)]]) ∧
    writeCount (ais2dw12_data_rate_set memDevice v ⟨m, []⟩).2.tr = 2 ∧
    writeCount (ais2dw12_filter_path_set memDevice v ⟨m, []⟩).2.tr = 2 ∧
    writeCount (ais2dw12_ff_dur_set memDevice v ⟨m, []⟩).2.tr = 2 ∧
    writeCount (ais2dw12_act_mode_set memDevice v ⟨m, []⟩).2.tr = 2 ∧
    writeBeforeRead (ais2dw12_ff_dur_set memDevice v ⟨m, []⟩).2.tr = false ∧
    writeBeforeRead (ais2dw12_act_mode_set memDevice v ⟨m, []⟩).2.tr = false := by
  refine ⟨?_, ?_, ?_, ?_, ?_, ?_, ?_, ?_, ?_, ?_⟩ <;>
    simp [ais2dw12_data_rate_set, ais2dw12_filter_path_set, ais2dw12_ff_dur_set,
      ais2dw12_act_mode_set, readR, writeR, memDevice, readBytes_one, byte1_cons,
      updList_single, mod256_mod256, AIS2DW12_CTRL1, AIS2DW12_CTRL3, AIS2DW12_CTRL6,
      AIS2DW12_CTRL7, AIS2DW12_WAKE_UP_THS, AIS2DW12_WAKE_UP_DUR, AIS2DW12_FREE_FALL,
      writeCount, writeBeforeRead, hasRead]

/-- Claim C2: in every composite operation, a non-zero status `e` from the
first register read makes the whole operation return `e` unchanged with no
further bus activity of any kind: the transaction trace gains exactly that
one read, so zero writes occur. -/
theorem claim_C2_short_circuit {σ : Type} (D : Device σ) (s : RunState σ)
    (v val0 : Nat) (e : Int) (he : e ≠ 0) :
    ((D.readReg s.dev AIS2DW12_CTRL1 1).1 = e →
      ais2dw12_data_rate_set D v s =
        (e, ⟨(D.readReg s.dev AIS2DW12_CTRL1 1).2.2, s.tr ++ [BusEvent.read AIS2DW12_CTRL1 1]⟩)) ∧
    ((D.readReg s.dev AIS2DW12_CTRL6 1).1 = e →
      ais2dw12_filter_path_set D v s =
        (e, ⟨(D.readReg s.dev AIS2DW12_CTRL6 1).2.2, s.tr ++ [BusEvent.read AIS2DW12_CTRL6 1]⟩)) ∧
    ((D.readReg s.dev AIS2DW12_WAKE_UP_DUR 1).1 = e →
      ais2dw12_ff_dur_set D v s =
        (e, ⟨(D.readReg s.dev AIS2DW12_WAKE_UP_DUR 1).2.2,
          s.tr ++ [BusEvent.read AIS2DW12_WAKE_UP_DUR 1]⟩)) ∧
    ((D.readReg s.dev AIS2DW12_WAKE_UP_THS 1).1 = e →
      ais2dw12_act_mode_set D v s =
        (e, ⟨(D.readReg s.dev AIS2DW12_WAKE_UP_THS 1).2.2,
          s.tr ++ [BusEvent.read AIS2DW12_WAKE_UP_THS 1]⟩)) ∧
    ((D.readReg s.dev AIS2DW12_CTRL5_INT2 1).1 = e →
      ais2dw12_pin_int1_route_set D v s =
        (e, ⟨(D.readReg s.dev AIS2DW12_CTRL5_INT2 1).2.2,
          s.tr ++ [BusEvent.read AIS2DW12_CTRL5_INT2 1]⟩)) ∧
    ((D.readReg s.dev AIS2DW12_CTRL4_INT1 1).1 = e →
      ais2dw12_pin_int2_route_set D v s =
        (e, ⟨(D.readReg s.dev AIS2DW12_CTRL4_INT1 1).2.2,
          s.tr ++ [BusEvent.read AIS2DW12_CTRL4_INT1 1]⟩)) ∧
    ((D.readReg s.dev AIS2DW12_CTRL1 1).1 = e →
      ais2dw12_data_rate_get D val0 s =
        (e, val0, ⟨(D.readReg s.dev AIS2DW12_CTRL1 1).2.2,
          s.tr ++ [BusEvent.read AIS2DW12_CTRL1 1]⟩)) ∧
    ((D.readReg s.dev AIS2DW12_CTRL6 1).1 = e →
      ais2dw12_filter_path_get D val0 s =
        (e, val0, ⟨(D.readReg s.dev AIS2DW12_CTRL6 1).2.2,
          s.tr ++ [BusEvent.read AIS2DW12_CTRL6 1]⟩)) ∧
    ((D.readReg s.dev AIS2DW12_WAKE_UP_THS 1).1 = e →
      ais2dw12_act_mode_get D val0 s =
        (e, val0, ⟨(D.readReg s.dev AIS2DW12_WAKE_UP_THS 1).2.2,
          s.tr ++ [BusEvent.read AIS2DW12_WAKE_UP_THS 1]⟩)) := by
  refine ⟨?_, ?_, ?_, ?_, ?_, ?_, ?_, ?_, ?_⟩ <;> intro h <;>
    simp [ais2dw12_data_rate_set, ais2dw12_filter_path_set, ais2dw12_ff_dur_set,
      ais2dw12_act_mode_set, ais2dw12_pin_int1_route_set, ais2dw12_pin_int2_route_set,
      ais2dw12_data_rate_get, ais2dw12_filter_path_get, ais2dw12_act_mode_get,
      readR, writeR, h, he]

/-- Witness for C2: the always-failing transport makes `data_rate_set`
return its status 7 after a single read event. -/
theorem claim_C2_short_circuit_witness :
    ais2dw12_data_rate_set failDev 0 ⟨(), []⟩ =
      (7, ⟨(), [] ++ [BusEvent.read AIS2DW12_CTRL1 1]⟩) :=
  (claim_C2_short_circuit failDev ⟨(), []⟩ 0 0 7 (by decide)).1 rfl

/-- The `interrupts_enable` value `pin_int1_route_set` computes: 1 when
the OR of the caller `int1_ff`, `int1_wu`, `int1_6d` bits with pin-2
currently stored `int2_sleep_state`, `int2_sleep_chg` bits is non-zero,
else 0. -/
def pin1Enable (v : Nat) (m : Mem) : Nat :=
  if (rdField (v % 256) 4 1 ||| rdField (v % 256) 5 1 ||| rdField (v % 256) 7 1 |||
      rdField (m AIS2DW12_CTRL5_INT2 % 256) 7 1 |||
      rdField (m AIS2DW12_CTRL5_INT2 % 256) 6 1) ≠ 0
  then 1 else 0

/-- The mirror value `pin_int2_route_set` computes from pin-1 stored
bits and the caller `int2_sleep_state`, `int2_sleep_chg` bits. -/
def pin2Enable (v : Nat) (m : Mem) : Nat :=
  if (rdField (m AIS2DW12_CTRL4_INT1 % 256) 4 1 |||
      rdField (m AIS2DW12_CTRL4_INT1 % 256) 5 1 |||
      rdField (m AIS2DW12_CTRL4_INT1 % 256) 7 1 |||
      rdField (v % 256) 7 1 ||| rdField (v % 256) 6 1) ≠ 0
  then 1 else 0

/-- Claim C3: `pin_int1_route_set` first reads pin-2 routing register
CTRL5_INT2 (and `pin_int2_route_set` first reads pin-1 CTRL4_INT1), and
the CTRL7 byte it writes carries `interrupts_enable` (bit 5) equal to 1
exactly when the OR of pin-1 free-fall, wake-up and six-position flags
with pin-2 stored sleep-state and sleep-change flags is non-zero, and 0
when all five are zero. -/
theorem claim_C3_int_enable (m : Mem) (v : Nat) :
    (ais2dw12_pin_int1_route_set memDevice v ⟨m, []⟩).1 = 0 ∧
    (ais2dw12_pin_int1_route_set memDevice v ⟨m, []⟩).2.tr =
      [BusEvent.read AIS2DW12_CTRL5_INT2 1, BusEvent.read AIS2DW12_CTRL7 1,
       BusEvent.write AIS2DW12_CTRL4_INT1 [v % 256],
       BusEvent.write AIS2DW12_CTRL7
         [wrField (m AIS2DW12_CTRL7 % 256) 5 1 (pin1Enable v m)]] ∧
    rdField (wrField (m AIS2DW12_CTRL7 % 256) 5 1 (pin1Enable v m)) 5 1 = pin1Enable v m ∧
    (pin1Enable v m = 1 ↔
      (rdField (v % 256) 4 1 ||| rdField (v % 256) 5 1 ||| rdField (v % 256) 7 1 |||
        rdField (m AIS2DW12_CTRL5_INT2 % 256) 7 1 |||
        rdField (m AIS2DW12_CTRL5_INT2 % 256) 6 1) ≠ 0) ∧
    (pin1Enable v m = 0 ↔
      (rdField (v % 256) 4 1 ||| rdField (v % 256) 5 1 ||| rdField (v % 256) 7 1 |||
        rdField (m AIS2DW12_CTRL5_INT2 % 256) 7 1 |||
        rdField (m AIS2DW12_CTRL5_INT2 % 256) 6 1) = 0) ∧
    (ais2dw12_pin_int2_route_set memDevice v ⟨m, []⟩).2.tr =
      [BusEvent.read AIS2DW12_CTRL4_INT1 1, BusEvent.read AIS2DW12_CTRL7 1,
       BusEvent.write AIS2DW12_CTRL5_INT2 [v % 256],
       BusEvent.write AIS2DW12_CTRL7
         [wrField (m AIS2DW12_CTRL7 % 256) 5 1 (pin2Enable v m)]] := by
  have hfield : rdField (wrField (m AIS2DW12_CTRL7 % 256) 5 1 (pin1Enable v m)) 5 1 =
      pin1Enable v m := by
    rw [rdField_wrField_self_mod]
    unfold pin1Enable
    split <;> rfl
  refine ⟨?_, ?_, hfield, ?_, ?_, ?_⟩
  · simp [ais2dw12_pin_int1_route_set, readR, writeR, memDevice, readBytes_one,
      byte1_cons, mod256_mod256, updList_single, AIS2DW12_CTRL5_INT2, AIS2DW12_CTRL7,
      AIS2DW12_CTRL4_INT1]
  · simp [ais2dw12_pin_int1_route_set, readR, writeR, memDevice, readBytes_one,
      byte1_cons, mod256_mod256, updList_single, pin1Enable, AIS2DW12_CTRL5_INT2,
      AIS2DW12_CTRL7, AIS2DW12_CTRL4_INT1]
  · unfold pin1Enable
    split <;> simp_all
  · unfold pin1Enable
    split <;> simp_all
  · simp [ais2dw12_pin_int2_route_set, readR, writeR, memDevice, readBytes_one,
      byte1_cons, mod256_mod256, updList_single, pin2Enable, AIS2DW12_CTRL5_INT2,
      AIS2DW12_CTRL7, AIS2DW12_CTRL4_INT1]

/-- Claim C5: an enumeration getter returns the transport status
unchanged (decode never signals an error), its result is always a member
of the closed enumeration, and a register byte whose decoded field matches
no listed case yields the documented lowest member (full scale: the 2g
member, code 0; power mode: `PWR_MD_4`, code 0). -/
theorem claim_C5_default_decode {σ : Type} (D : Device σ) (s : RunState σ) (v0 : Nat) :
    (ais2dw12_full_scale_get D v0 s).1 = (D.readReg s.dev AIS2DW12_CTRL6 1).1 ∧
    (ais2dw12_full_scale_get D v0 s).2.1 ∈ fsCodes ∧
    (rdField (byte1 (D.readReg s.dev AIS2DW12_CTRL6 1).2.1) 4 2 ∉ fsCodes →
      (ais2dw12_full_scale_get D v0 s).2.1 = 0) ∧
    (ais2dw12_power_mode_get D v0 s).1 = (D.readReg s.dev AIS2DW12_CTRL1 1).1 ∧
    (ais2dw12_power_mode_get D v0 s).2.1 ∈ modeCodes ∧
    ((rdField (byte1 (D.readReg s.dev AIS2DW12_CTRL1 1).2.1) 2 2 <<< 2) +
        rdField (byte1 (D.readReg s.dev AIS2DW12_CTRL1 1).2.1) 0 2 ∉ modeCodes →
      (ais2dw12_power_mode_get D v0 s).2.1 = 0) := by
  refine ⟨rfl, ?_, ?_, rfl, ?_, ?_⟩
  · exact decodeFs_mem _
  · intro h
    exact decodeFs_default h
  · exact decodeMode_mem _
  · intro h
    exact decodeMode_default h

/-- A transport that always succeeds and always returns the single byte
`0x20`: the `fs` field of CTRL6 decodes to the reserved pattern 2. -/
def rsvDev : Device Unit where
  readReg _ _ _ := (0, [0x20], ())
  writeReg _ _ _ := (0, ())

/-- Witness for C5: byte `0x20` has `fs = 2`, a reserved pattern, and the
full-scale getter returns the 2g member (code 0) with success status. -/
theorem claim_C5_default_decode_witness :
    rdField (byte1 (rsvDev.readReg () AIS2DW12_CTRL6 1).2.1) 4 2 ∉ fsCodes ∧
    (ais2dw12_full_scale_get rsvDev 9 ⟨(), []⟩).2.1 = 0 ∧
    (ais2dw12_full_scale_get rsvDev 9 ⟨(), []⟩).1 = 0 :=
  ⟨by decide, (claim_C5_default_decode rsvDev ⟨(), []⟩ 9).2.2.1 (by decide),
    (claim_C5_default_decode rsvDev ⟨(), []⟩ 9).1⟩

/-- Claim C6: with a NULL device context the transport shim returns the
fixed sentinel `-1` immediately (there is no callback to invoke); with a
non-null context it forwards the register address, buffer and length
verbatim to the caller callback and returns its status unchanged. -/
theorem claim_C6_transport_shim {σ : Type} (c : StmdevCtx σ) (reg len : Nat)
    (data : List Nat) :
    ais2dw12_read_reg (none : Option (StmdevCtx σ)) reg len = (-1, [], none) ∧
    ais2dw12_write_reg (none : Option (StmdevCtx σ)) reg data = (-1, none) ∧
    ais2dw12_read_reg (some c) reg len =
      ((c.read_reg c.handle reg len).1, (c.read_reg c.handle reg len).2.1,
        some (c.read_reg c.handle reg len).2.2) ∧
    ais2dw12_write_reg (some c) reg data =
      ((c.write_reg c.handle reg data).1, some (c.write_reg c.handle reg data).2) :=
  ⟨rfl, rfl, rfl, rfl⟩

/-- Claim C7: the all-sources aggregate read issues exactly one 5-byte bus
read at STATUS_DUP and populates its four sub-structures from buffer bytes
0, 1, 3 and 4; buffer byte 2 appears in no output field — changing the
store at address STATUS_DUP+2 alone leaves the output unchanged. -/
theorem claim_C7_all_sources {σ : Type} (D : Device σ) (s : RunState σ)
    (m : Mem) (cv : Nat) :
    (ais2dw12_all_sources_get D s).1 = (D.readReg s.dev AIS2DW12_STATUS_DUP 5).1 ∧
    (ais2dw12_all_sources_get D s).2.1 =
      { status_dup := (D.readReg s.dev AIS2DW12_STATUS_DUP 5).2.1.getD 0 0 % 256,
        wake_up_src := (D.readReg s.dev AIS2DW12_STATUS_DUP 5).2.1.getD 1 0 % 256,
        sixd_src := (D.readReg s.dev AIS2DW12_STATUS_DUP 5).2.1.getD 3 0 % 256,
        all_int_src := (D.readReg s.dev AIS2DW12_STATUS_DUP 5).2.1.getD 4 0 % 256 } ∧
    (ais2dw12_all_sources_get D s).2.2.tr = s.tr ++ [BusEvent.read AIS2DW12_STATUS_DUP 5] ∧
    (ais2dw12_all_sources_get memDevice ⟨m, []⟩).2.1 =
      { status_dup := m AIS2DW12_STATUS_DUP % 256,
        wake_up_src := m (AIS2DW12_STATUS_DUP + 1) % 256,
        sixd_src := m (AIS2DW12_STATUS_DUP + 3) % 256,
        all_int_src := m (AIS2DW12_STATUS_DUP + 4) % 256 } ∧
    (ais2dw12_all_sources_get memDevice
        ⟨fun a => if a = AIS2DW12_STATUS_DUP + 2 then cv else m a, []⟩).2.1 =
      (ais2dw12_all_sources_get memDevice ⟨m, []⟩).2.1 := by
  refine ⟨rfl, rfl, rfl, ?_, ?_⟩ <;>
    simp [ais2dw12_all_sources_get, readR, memDevice, readBytes_five, mod256_mod256,
      AIS2DW12_STATUS_DUP]

/-- Claim C8: from the single 6-byte acceleration read, axis `i` is the
16-bit twos-complement value of `high*256 + low` taken from offsets
`2i+1`, `2i`; the temperature is assembled the same way from its own
2-byte read; `i16` really is reduction modulo 2^16 into the signed 16-bit
range; bytes low `0x00`, high `0x04` decode to 1024. -/
theorem claim_C8_sample_assembly {σ : Type} (D : Device σ) (s : RunState σ) (x : Nat) :
    (ais2dw12_acceleration_raw_get D s).2.1 =
      (i16 (((D.readReg s.dev AIS2DW12_OUT_X_L 6).2.1.getD 1 0 % 256) * 256 +
          (D.readReg s.dev AIS2DW12_OUT_X_L 6).2.1.getD 0 0 % 256),
       i16 (((D.readReg s.dev AIS2DW12_OUT_X_L 6).2.1.getD 3 0 % 256) * 256 +
          (D.readReg s.dev AIS2DW12_OUT_X_L 6).2.1.getD 2 0 % 256),
       i16 (((D.readReg s.dev AIS2DW12_OUT_X_L 6).2.1.getD 5 0 % 256) * 256 +
          (D.readReg s.dev AIS2DW12_OUT_X_L 6).2.1.getD 4 0 % 256)) ∧
    (ais2dw12_acceleration_raw_get D s).2.2.tr = s.tr ++ [BusEvent.read AIS2DW12_OUT_X_L 6] ∧
    (ais2dw12_temperature_raw_get D s).2.1 =
      i16 (((D.readReg s.dev AIS2DW12_OUT_T_L 2).2.1.getD 1 0 % 256) * 256 +
        (D.readReg s.dev AIS2DW12_OUT_T_L 2).2.1.getD 0 0 % 256) ∧
    (ais2dw12_temperature_raw_get D s).2.2.tr = s.tr ++ [BusEvent.read AIS2DW12_OUT_T_L 2] ∧
    (-32768 ≤ i16 x ∧ i16 x ≤ 32767 ∧ i16 x % 65536 = ((x % 65536 : Nat) : Int)) ∧
    i16 (0x04 * 256 + 0x00) = 1024 ∧
    (ais2dw12_acceleration_raw_get memDevice
        ⟨fun a => if a = AIS2DW12_OUT_X_L + 1 then 0x04 else 0, []⟩).2.1.1 = 1024 := by
  refine ⟨rfl, rfl, rfl, rfl, ⟨?_, ?_, ?_⟩, by decide, by decide⟩ <;>
    (unfold i16; split <;> omega)

/-- Claim C9: a single-field setter is a read-modify-write: on a
successful read of byte `b` it writes back exactly `b` with only the
target field replaced — bits below the field (`% 2^lo`) and above it
(`/ 2^(lo+w)`) are written back as read, and the field itself carries the
argument. Shown for block-data-update (`bdu`, CTRL2 bit 3) and full scale
(`fs`, CTRL6 bits 4-5). -/
theorem claim_C9_read_modify_write {σ : Type} (D : Device σ) (s : RunState σ) (v : Nat) :
    ((D.readReg s.dev AIS2DW12_CTRL2 1).1 = 0 →
      (ais2dw12_block_data_update_set D v s).2.tr =
        s.tr ++ [BusEvent.read AIS2DW12_CTRL2 1,
          BusEvent.write AIS2DW12_CTRL2
            [wrField (byte1 (D.readReg s.dev AIS2DW12_CTRL2 1).2.1) 3 1 v]]) ∧
    (∀ b, b < 256 → wrField b 3 1 v % 8 = b % 8 ∧ wrField b 3 1 v / 16 = b / 16 ∧
      rdField (wrField b 3 1 v) 3 1 = v % 2) ∧
    ((D.readReg s.dev AIS2DW12_CTRL6 1).1 = 0 →
      (ais2dw12_full_scale_set D v s).2.tr =
        s.tr ++ [BusEvent.read AIS2DW12_CTRL6 1,
          BusEvent.write AIS2DW12_CTRL6
            [wrField (byte1 (D.readReg s.dev AIS2DW12_CTRL6 1).2.1) 4 2 v]]) ∧
    (∀ b, b < 256 → wrField b 4 2 v % 16 = b % 16 ∧ wrField b 4 2 v / 64 = b / 64 ∧
      rdField (wrField b 4 2 v) 4 2 = v % 4) := by
  refine ⟨?_, ?_, ?_, ?_⟩
  · intro h
    simp [ais2dw12_block_data_update_set, readR, writeR, h]
  · intro b hb
    refine ⟨?_, ?_, ?_⟩
    · simpa using wrField_mod_low 3 1 v hb
    · simpa using wrField_div_high 3 1 v hb
    · simpa using rdField_wrField_self 3 1 v hb
  · intro h
    simp [ais2dw12_full_scale_set, readR, writeR, h]
  · intro b hb
    refine ⟨?_, ?_, ?_⟩
    · simpa using wrField_mod_low 4 2 v hb
    · simpa using wrField_div_high 4 2 v hb
    · simpa using rdField_wrField_self 4 2 v hb

/-- Witness for C9: block-data-update set at value 1 on the simulated
all-zero store, and the frame condition at the concrete byte `0xF7`. -/
theorem claim_C9_read_modify_write_witness :
    (ais2dw12_block_data_update_set memDevice 1 ⟨mem0, []⟩).2.tr =
      [] ++ [BusEvent.read AIS2DW12_CTRL2 1,
        BusEvent.write AIS2DW12_CTRL2
          [wrField (byte1 (memDevice.readReg mem0 AIS2DW12_CTRL2 1).2.1) 3 1 1]] ∧
    (wrField 0xF7 3 1 1 % 8 = 0xF7 % 8 ∧ wrField 0xF7 3 1 1 / 16 = 0xF7 / 16 ∧
      rdField (wrField 0xF7 3 1 1) 3 1 = 1 % 2) :=
  ⟨(claim_C9_read_modify_write memDevice ⟨mem0, []⟩ 1).1 rfl,
    (claim_C9_read_modify_write memDevice ⟨mem0, []⟩ 1).2.1 0xF7 (by decide)⟩

/-- Claim C10: on a failed first read with status `e`, the composite
getters `data_rate_get`, `filter_path_get` and `act_mode_get` return `e`
with the caller output variable untouched and without issuing the second
read; the single-register getter `block_data_update_get` assigns its
output from the buffer even when the read fails. -/
theorem claim_C10_getter_outputs {σ : Type} (D : Device σ) (s : RunState σ)
    (val0 : Nat) (e : Int) (he : e ≠ 0) :
    ((D.readReg s.dev AIS2DW12_CTRL1 1).1 = e →
      ais2dw12_data_rate_get D val0 s =
        (e, val0, ⟨(D.readReg s.dev AIS2DW12_CTRL1 1).2.2,
          s.tr ++ [BusEvent.read AIS2DW12_CTRL1 1]⟩)) ∧
    ((D.readReg s.dev AIS2DW12_CTRL6 1).1 = e →
      ais2dw12_filter_path_get D val0 s =
        (e, val0, ⟨(D.readReg s.dev AIS2DW12_CTRL6 1).2.2,
          s.tr ++ [BusEvent.read AIS2DW12_CTRL6 1]⟩)) ∧
    ((D.readReg s.dev AIS2DW12_WAKE_UP_THS 1).1 = e →
      ais2dw12_act_mode_get D val0 s =
        (e, val0, ⟨(D.readReg s.dev AIS2DW12_WAKE_UP_THS 1).2.2,
          s.tr ++ [BusEvent.read AIS2DW12_WAKE_UP_THS 1]⟩)) ∧
    (ais2dw12_block_data_update_get D val0 s).2.1 =
      rdField (byte1 (D.readReg s.dev AIS2DW12_CTRL2 1).2.1) 3 1 ∧
    (ais2dw12_block_data_update_get D val0 s).1 = (D.readReg s.dev AIS2DW12_CTRL2 1).1 := by
  refine ⟨?_, ?_, ?_, rfl, rfl⟩ <;> intro h <;>
    simp [ais2dw12_data_rate_get, ais2dw12_filter_path_get, ais2dw12_act_mode_get,
      readR, h, he]

/-- Witness for C10: on the always-failing transport the composite getter
leaves the caller value 42 unchanged, while `block_data_update_get`
overwrites it with the field of the (empty) buffer, 0. -/
theorem claim_C10_getter_outputs_witness :
    ais2dw12_data_rate_get failDev 42 ⟨(), []⟩ =
      (7, 42, ⟨(), [] ++ [BusEvent.read AIS2DW12_CTRL1 1]⟩) ∧
    (ais2dw12_block_data_update_get failDev 42 ⟨(), []⟩).2.1 = 0 ∧
    (ais2dw12_block_data_update_get failDev 42 ⟨(), []⟩).1 = 7 :=
  ⟨(claim_C10_getter_outputs failDev ⟨(), []⟩ 42 7 (by decide)).1 rfl, by decide, by decide⟩

end Ais2dw12
